import Mathlib

/-
Verification of the Netlify comment-submission webhook handler
(netlify/functions/submission-created.js) of the true-parenting-site
repository.

The repository ships several variants of the one serverless function.  The
two handlers of netlify/functions/submission-created.js are embedded here:

* `handlerV1` — the first handler in that file (Strategy B, static
  missing-fields message, unsanitized slug in the branch name, and a catch
  block whose branch-cleanup is guarded by `error.attemptedBranchCreation`);
* `handlerV2` — the second handler in that file (Strategy B with an HTTP
  method check, a computed missing-fields message, a sanitized slug, and an
  unconditional cleanup attempt in the catch block).

The other two variants in the repository (a direct-to-main Strategy A
variant and a Strategy B variant with a deploy trigger) share the same
validation pipeline as `handlerV2`.

Modelling conventions:

* JS strings are Lean `String`s; `s.length` models the JS `.length`
  (they agree on the basic-plane text involved here), and the JS string
  methods used by the source (`trim`, `startsWith`, the sanitizing
  `replace(/[^a-z0-9]/gi, "-")`) are defined explicitly below over the
  character list.
* A missing/undefined payload field is the empty string, which is exactly
  the falsy case JS truthiness tests distinguish for strings.
* Every GitHub API call the handler performs is recorded in an operation
  trace (`StoreOp`); the responses the remote store gives to the calls of
  one invocation are an oracle (`Store`).  Octokit request errors carry a
  `status` and a `message` (`JsErr`).  Repository owner/name, which are
  constant configuration passed to every call, are omitted from the trace.
* The Base64+JSON encoding of the comments file is abstracted: the oracle
  returns the decoded record list, and the written content is recorded in
  the trace as the record list handed to the encoder.  JSON response
  bodies are rendered without escaping, which is exact for the message
  strings involved here.
* `event.body` parsing is out of scope (no claim concerns it): the
  handlers take the already-parsed payload.
-/

namespace TrueParenting

/-- JS `String.prototype.trim` over the character sequence: drop leading and
trailing whitespace. -/
def jsTrim (s : String) : String :=
  ⟨((s.data.dropWhile Char.isWhitespace).reverse.dropWhile Char.isWhitespace).reverse⟩

/-- JS `String.prototype.startsWith`: the second string is a prefix of the
first, as character sequences. -/
def jsStartsWith (s pat : String) : Bool :=
  pat.data.isPrefixOf s.data

/-- JS `String(article_slug).replace(/[^a-z0-9]/gi, "-")`: every character
outside ASCII letters and digits is replaced by a hyphen. -/
def sanitizeSlug (s : String) : String :=
  ⟨s.data.map fun c => if c.isAlpha || c.isDigit then c else '-'⟩

/-- The persisted comment record (`commentData` in the source): exactly the
fields id, name, comment, date.  The submitter email has no field here,
mirroring the source comment "NO GUARDAMOS EL EMAIL". -/
structure CommentRecord where
  id : String
  name : String
  comment : String
  date : String
deriving DecidableEq, Repr

/-- The parsed submission payload: `payload.form_name`, `payload.id` and the
fields destructured from `payload.data`.  An absent field is `""`. -/
structure Payload where
  form_name : String
  name : String
  comment : String
  article_slug : String
  article_title : String
  email : String
  botField : String
  submissionId : String
deriving DecidableEq, Repr

/-- Environment configuration: `REPO_BRANCH` and `NETLIFY_FORM_NAME_PREFIX`
(with their defaults "main" and "comments-"). -/
structure Config where
  repoBranch : String
  formNamePfx : String
deriving DecidableEq, Repr

/-- An Octokit request error: HTTP status (absent for non-HTTP failures) and
message. -/
structure JsErr where
  status : Option Nat
  message : String
deriving DecidableEq, Repr

/-- Reading `error.attemptedBranchCreation` in the first handler's catch
block: no code in the repository ever sets an `attemptedBranchCreation`
property on any error it throws, so the property read yields `undefined`,
which is falsy. -/
def JsErr.attemptedBranchCreation (_ : JsErr) : Bool := false

/-- The `fileData` returned by `octokit.repos.getContent`: the (decoded) comment
list when the `content` field is present/truthy, and the blob `sha` used as
the optimistic-concurrency version token. -/
structure FileData where
  content : Option (List CommentRecord)
  sha : String
deriving DecidableEq, Repr

/-- One GitHub API call made by a handler, with the arguments the source
passes (owner/repo omitted as constants). -/
inductive StoreOp where
  | getRef : String → StoreOp
  | createRef : String → String → StoreOp
  | getContent : String → String → StoreOp
  | putContent : String → String → List CommentRecord → Option String → String → StoreOp
  | createPull : String → String → String → String → StoreOp
  | deleteRef : String → StoreOp
deriving DecidableEq, Repr

/-- The store oracle: the result the remote store returns to each call a
single invocation makes (each call site runs at most once per invocation). -/
structure Store where
  getRefRes : Except JsErr String
  createRefRes : Except JsErr Unit
  getContentRes : Except JsErr FileData
  putContentRes : Except JsErr Unit
  createPullRes : Except JsErr String
  deleteRefRes : Except JsErr Unit

/-- An HTTP response of the handler. -/
structure Response where
  statusCode : Nat
  body : String
deriving DecidableEq, Repr

/-- The record `commentData` as both handlers build it: id from `Date.now().toString()`,
trimmed name and comment, ISO date — and nothing else. -/
def commentDataOf (p : Payload) (nowId nowDate : String) : CommentRecord :=
  { id := nowId, name := jsTrim p.name, comment := jsTrim p.comment, date := nowDate }

/-- The path `commentsFilePath` = `` `_data/comments/${article_slug}.json` ``. -/
def commentsFilePathOf (p : Payload) : String :=
  "_data/comments/" ++ p.article_slug ++ ".json"

/-- First handler: `` `comment-${article_slug}-${commentData.id}` `` — the raw
slug is interpolated. -/
def newBranchNameV1 (slug recId : String) : String :=
  "comment-" ++ slug ++ "-" ++ recId

/-- Second handler: `` `comment-${sanitizedSlug}-${commentData.id}` ``. -/
def newBranchNameV2 (slug recId : String) : String :=
  "comment-" ++ sanitizeSlug slug ++ "-" ++ recId

/-- The list `updatedComments = [...existingComments, commentData]`. -/
def updatedCommentsOf (existing : List CommentRecord) (cd : CommentRecord) : List CommentRecord :=
  existing ++ [cd]

/-- The string `commitMessage` = `` `feat: Add new comment to ${article_title} (ID: ${commentData.id})` ``. -/
def commitMessageOf (p : Payload) (cd : CommentRecord) : String :=
  "feat: Add new comment to " ++ p.article_title ++ " (ID: " ++ cd.id ++ ")"

/-- The string `prTitle` = `` `New Comment: ${article_title} by ${name}` ``. -/
def prTitleOf (p : Payload) : String :=
  "New Comment: " ++ p.article_title ++ " by " ++ p.name

/-- The first handler's pull-request body template. -/
def prBodyV1 (p : Payload) (cd : CommentRecord) : String :=
  "\nNew comment submitted for article: **" ++ p.article_title ++ "** (`slug: " ++
    p.article_slug ++ "`)\nBy: **" ++ p.name ++ "**\nComment ID: `" ++ cd.id ++
    "`\n\n---\n**Comment:**\n> " ++ p.comment ++
    "\n---\n\nPlease review and merge if appropriate.\nSubmission ID: " ++ p.submissionId ++ "\n"

/-- The second handler's pull-request body template; unlike the first, it
embeds `` `User Email: ${email || "Not provided"}` ``. -/
def prBodyV2 (cfg : Config) (p : Payload) (cd : CommentRecord) (brName : String) : String :=
  "\nNew comment submitted for article: **" ++ p.article_title ++ "** (slug: " ++
    p.article_slug ++ ")\nBy: **" ++ p.name ++ "**\nUser Email: " ++
    (if p.email = "" then "Not provided" else p.email) ++ "\nComment ID: " ++ cd.id ++
    "\n\n---\n**Comment:**\n> " ++ p.comment ++
    "\n\nThis pull request will merge branch `" ++ brName ++ "` into `" ++
    cfg.repoBranch ++ "` (main).\n"

/-- The inner `try { getContent … } catch` of both handlers: a present
`content` field yields the decoded list and the blob sha; a 404 (or an ok
response with a falsy `content`) leaves `existingComments = []` and
`fileSha = null`; any other error is rethrown. -/
def readCollection (st : Store) : Except JsErr (List CommentRecord × Option String) :=
  match st.getContentRes with
  | .ok fd =>
    match fd.content with
    | some cs => .ok (cs, some fd.sha)
    | none => .ok ([], none)
  | .error e => if e.status = some 404 then .ok ([], none) else .error e

/-- The first handler's `try` block: getRef on the main branch, createRef for
the new branch, read the collection, write the appended collection, open the
pull request.  Returns the PR url or the first error, with the trace of
calls actually issued. -/
def runV1 (cfg : Config) (p : Payload) (cd : CommentRecord) (st : Store) :
    Except JsErr String × List StoreOp :=
  let path := commentsFilePathOf p
  let brName := newBranchNameV1 p.article_slug cd.id
  let t0 := [StoreOp.getRef ("heads/" ++ cfg.repoBranch)]
  match st.getRefRes with
  | .error e => (.error e, t0)
  | .ok mainSha =>
    let t1 := t0 ++ [StoreOp.createRef ("refs/heads/" ++ brName) mainSha]
    match st.createRefRes with
    | .error e => (.error e, t1)
    | .ok _ =>
      let t2 := t1 ++ [StoreOp.getContent path brName]
      match readCollection st with
      | .error e => (.error e, t2)
      | .ok (existing, fileSha) =>
        let updated := updatedCommentsOf existing cd
        let t3 := t2 ++ [StoreOp.putContent path (commitMessageOf p cd) updated fileSha brName]
        match st.putContentRes with
        | .error e => (.error e, t3)
        | .ok _ =>
          let t4 := t3 ++ [StoreOp.createPull (prTitleOf p) brName cfg.repoBranch (prBodyV1 p cd)]
          match st.createPullRes with
          | .error e => (.error e, t4)
          | .ok url => (.ok url, t4)

/-- The second handler's `try` block; identical to `runV1` except for the
sanitized branch name and the pull-request body. -/
def runV2 (cfg : Config) (p : Payload) (cd : CommentRecord) (st : Store) :
    Except JsErr String × List StoreOp :=
  let path := commentsFilePathOf p
  let brName := newBranchNameV2 p.article_slug cd.id
  let t0 := [StoreOp.getRef ("heads/" ++ cfg.repoBranch)]
  match st.getRefRes with
  | .error e => (.error e, t0)
  | .ok mainSha =>
    let t1 := t0 ++ [StoreOp.createRef ("refs/heads/" ++ brName) mainSha]
    match st.createRefRes with
    | .error e => (.error e, t1)
    | .ok _ =>
      let t2 := t1 ++ [StoreOp.getContent path brName]
      match readCollection st with
      | .error e => (.error e, t2)
      | .ok (existing, fileSha) =>
        let updated := updatedCommentsOf existing cd
        let t3 := t2 ++ [StoreOp.putContent path (commitMessageOf p cd) updated fileSha brName]
        match st.putContentRes with
        | .error e => (.error e, t3)
        | .ok _ =>
          let t4 := t3 ++
            [StoreOp.createPull (prTitleOf p) brName cfg.repoBranch (prBodyV2 cfg p cd brName)]
          match st.createPullRes with
          | .error e => (.error e, t4)
          | .ok url => (.ok url, t4)

/-- The body `JSON.stringify({ error: msg })`. -/
def jsonError (msg : String) : String :=
  "\x7b\"error\":\"" ++ msg ++ "\"\x7d"

/-- The body `JSON.stringify({ message: msg })`. -/
def jsonMsg (msg : String) : String :=
  "\x7b\"message\":\"" ++ msg ++ "\"\x7d"

/-- The first handler's success body:
`JSON.stringify({ message: …, pr_url: pullRequest.html_url })`. -/
def successBodyV1 (url : String) : String :=
  "\x7b\"message\":\"Comment submitted for moderation. Thank you!\",\"pr_url\":\"" ++
    url ++ "\"\x7d"

/-- The second handler's success body. -/
def successBodyV2 (url : String) : String :=
  "\x7b\"message\":\"Comment submitted and pull request to main created successfully.\",\"pr_url\":\"" ++
    url ++ "\"\x7d"

/-- The second handler's missing-field list:
`[!name && "name", !comment && "comment", …].filter(Boolean)`. -/
def missingFieldsV2 (p : Payload) : List String :=
  [if p.name = "" then some "name" else none,
   if p.comment = "" then some "comment" else none,
   if p.article_slug = "" then some "article_slug" else none,
   if p.article_title = "" then some "article_title" else none].filterMap id

/-- The first handler of netlify/functions/submission-created.js (no HTTP
method check; static missing-fields message; raw slug in the branch name;
catch-block cleanup guarded by `error.attemptedBranchCreation`). -/
def handlerV1 (cfg : Config) (p : Payload) (st : Store) (nowId nowDate : String) :
    Response × List StoreOp :=
  if p.form_name = "" ∨ jsStartsWith p.form_name cfg.formNamePfx = false then
    (⟨200, "Form \"" ++ p.form_name ++ "\" not a comment form. Submission skipped."⟩, [])
  else if p.botField ≠ "" then
    (⟨400, "Spam submission detected."⟩, [])
  else if p.name = "" ∨ p.comment = "" ∨ p.article_slug = "" ∨ p.article_title = "" then
    (⟨400, "Missing required fields: name, comment, article_slug, article_title."⟩, [])
  else if 2000 < p.comment.length then
    (⟨400, "Comment is too long."⟩, [])
  else
    let cd := commentDataOf p nowId nowDate
    let brName := newBranchNameV1 p.article_slug cd.id
    match runV1 cfg p cd st with
    | (.ok url, t) => (⟨200, successBodyV1 url⟩, t)
    | (.error e, t) =>
      if JsErr.attemptedBranchCreation e = true ∧ brName ≠ "" then
        (⟨500, "Error processing comment: " ++ e.message⟩,
          t ++ [StoreOp.deleteRef ("heads/" ++ brName)])
      else
        (⟨500, "Error processing comment: " ++ e.message⟩, t)

/-- The second handler of netlify/functions/submission-created.js (HTTP
method check; computed missing-fields message; sanitized slug; the catch
block always attempts to delete the new branch, ignoring cleanup errors). -/
def handlerV2 (cfg : Config) (httpMethod : String) (p : Payload) (st : Store)
    (nowId nowDate : String) : Response × List StoreOp :=
  if httpMethod ≠ "POST" then
    (⟨405, "Method Not Allowed"⟩, [])
  else if p.form_name = "" ∨ jsStartsWith p.form_name cfg.formNamePfx = false then
    (⟨200, jsonMsg ("Form \"" ++ p.form_name ++ "\" not a comment form. Submission skipped.")⟩, [])
  else if p.botField ≠ "" then
    (⟨400, jsonError "Spam submission detected."⟩, [])
  else if p.name = "" ∨ p.comment = "" ∨ p.article_slug = "" ∨ p.article_title = "" then
    (⟨400, jsonError ("Missing required fields: " ++
      String.intercalate ", " (missingFieldsV2 p))⟩, [])
  else if 2000 < p.comment.length then
    (⟨400, jsonError "Comment is too long (max 2000 chars)."⟩, [])
  else
    let cd := commentDataOf p nowId nowDate
    let brName := newBranchNameV2 p.article_slug cd.id
    match runV2 cfg p cd st with
    | (.ok url, t) => (⟨200, successBodyV2 url⟩, t)
    | (.error e, t) =>
      (⟨500, jsonError ("Error processing comment: " ++ e.message)⟩,
        t ++ [StoreOp.deleteRef ("heads/" ++ brName)])

/-- The branch-deletion calls of a trace. -/
def hasDeleteRef (t : List StoreOp) : Bool :=
  t.any fun op => match op with
    | StoreOp.deleteRef _ => true
    | _ => false

/-- The file writes of a trace. -/
def writesOf (t : List StoreOp) : List StoreOp :=
  t.filter fun op => match op with
    | StoreOp.putContent _ _ _ _ _ => true
    | _ => false

/-- Default configuration: branch "main", form-name prefix "comments-". -/
def cfg0 : Config := ⟨"main", "comments-"⟩

/-- A store where every call succeeds and the comments file does not exist
yet (read responds 404). -/
def stOK : Store :=
  ⟨.ok "abc123", .ok (), .error ⟨some 404, "Not Found"⟩, .ok (),
   .ok "https://github.com/o/r/pull/1", .ok ()⟩

/-- The concrete scenario payload of the specification. -/
def pAna : Payload :=
  ⟨"comments-intro", "Ana", "Great post!", "intro", "Intro", "", "", "123"⟩

/-- A store run in which branch creation succeeds and the final step (the
pull-request creation) fails with a 422. -/
def stPullFails : Store :=
  ⟨.ok "abc123", .ok (), .error ⟨some 404, "Not Found"⟩, .ok (),
   .error ⟨some 422, "Validation Failed"⟩, .ok ()⟩

/-- Claim C1: in Strategy B, whenever the review branch was successfully
created and a later step fails, the handler attempts to delete the new
branch before returning, and the response reports the original failure.
This FAILS on the first handler: its cleanup is guarded by
`error.attemptedBranchCreation`, a property no code ever sets, so in the
run below the branch is created, the pull-request creation fails, the
response is the original 500 — and no branch deletion is ever attempted. -/
theorem C1_cleanup_never_attempted :
    (handlerV1 cfg0 pAna stPullFails "1730000000000" "2024-01-01T00:00:00.000Z").1 =
      ⟨500, "Error processing comment: Validation Failed"⟩ ∧
    StoreOp.createRef ("refs/heads/" ++ newBranchNameV1 "intro" "1730000000000") "abc123" ∈
      (handlerV1 cfg0 pAna stPullFails "1730000000000" "2024-01-01T00:00:00.000Z").2 ∧
    hasDeleteRef (handlerV1 cfg0 pAna stPullFails "1730000000000" "2024-01-01T00:00:00.000Z").2
      = false := by
  decide

/-- Claim C7: a payload whose form name does not start with the configured
prefix is skipped with a success response and no store call at all. -/
theorem C7_skip_no_store_ops (cfg : Config) (p : Payload) (st : Store) (i d : String)
    (h : jsStartsWith p.form_name cfg.formNamePfx = false) :
    handlerV1 cfg p st i d =
      (⟨200, "Form \"" ++ p.form_name ++ "\" not a comment form. Submission skipped."⟩, []) := by
  unfold handlerV1
  rw [if_pos (Or.inr h)]

/-- Witness for C7: the form "contact" is skipped with a 200 and an empty
trace. -/
theorem C7_witness :
    handlerV1 cfg0 ⟨"contact", "Ana", "hi", "intro", "Intro", "", "", "1"⟩ stOK "1" "d" =
      (⟨200, "Form \"contact\" not a comment form. Submission skipped."⟩, []) := by
  have h := C7_skip_no_store_ops cfg0 ⟨"contact", "Ana", "hi", "intro", "Intro", "", "", "1"⟩
    stOK "1" "d" (by decide)
  rw [h]
  decide

/-- Claim C9: a non-POST delivery yields a method-not-allowed response and no
store call. -/
theorem C9_method_not_allowed (cfg : Config) (m : String) (p : Payload) (st : Store)
    (i d : String) (h : m ≠ "POST") :
    handlerV2 cfg m p st i d = (⟨405, "Method Not Allowed"⟩, []) := by
  unfold handlerV2
  rw [if_pos h]

/-- Witness for C9: a GET delivery is answered 405 with an empty trace. -/
theorem C9_witness :
    handlerV2 cfg0 "GET" pAna stOK "1" "d" = (⟨405, "Method Not Allowed"⟩, []) :=
  C9_method_not_allowed cfg0 "GET" pAna stOK "1" "d" (by decide)

/-- A payload in which only the name is missing. -/
def pMissingName : Payload :=
  ⟨"comments-intro", "", "hi", "intro", "Intro", "", "", "1"⟩

/-- Counterexample to claim C2 as stated: on the first handler, a payload
missing only `name` is rejected with the fixed message naming all four
fields, so present fields are listed too — the message is not the exact
enumeration of the missing fields (which is just `name`). -/
theorem C2_counterexample :
    (handlerV1 cfg0 pMissingName stOK "1" "d").1 =
      ⟨400, "Missing required fields: name, comment, article_slug, article_title."⟩ ∧
    missingFieldsV2 pMissingName = ["name"] ∧
    pMissingName.comment ≠ "" ∧
    (handlerV1 cfg0 pMissingName stOK "1" "d").1.body ≠
      "Missing required fields: " ++
        String.intercalate ", " (missingFieldsV2 pMissingName) := by
  decide

/-- Claim C2 (amended to the handlers that compute the missing list): when
the form matches, the honeypot is empty and some required field is missing,
the second handler rejects with a client error whose message enumerates
exactly the missing field names — every missing field listed, no present
field listed — in the stable order name, comment, article_slug,
article_title, and no store call is made. -/
theorem C2_missing_fields_exact (cfg : Config) (p : Payload) (st : Store) (i d : String)
    (hf1 : p.form_name ≠ "") (hf2 : jsStartsWith p.form_name cfg.formNamePfx = true)
    (hb : p.botField = "")
    (hm : p.name = "" ∨ p.comment = "" ∨ p.article_slug = "" ∨ p.article_title = "") :
    handlerV2 cfg "POST" p st i d =
      (⟨400, jsonError ("Missing required fields: " ++
        String.intercalate ", " (missingFieldsV2 p))⟩, []) ∧
    (∀ f, f ∈ missingFieldsV2 p ↔
      ((f = "name" ∧ p.name = "") ∨ (f = "comment" ∧ p.comment = "") ∨
       (f = "article_slug" ∧ p.article_slug = "") ∨
       (f = "article_title" ∧ p.article_title = ""))) ∧
    (missingFieldsV2 p).Sublist ["name", "comment", "article_slug", "article_title"] := by
  refine ⟨?_, ?_, ?_⟩
  · unfold handlerV2
    rw [if_neg (by simp), if_neg (by simp [hf1, hf2]), if_neg (by simp [hb]), if_pos hm]
  · intro f
    by_cases hn : p.name = "" <;> by_cases hc : p.comment = "" <;>
      by_cases hs : p.article_slug = "" <;> by_cases ht : p.article_title = "" <;>
      simp [missingFieldsV2, hn, hc, hs, ht]
  · by_cases hn : p.name = "" <;> by_cases hc : p.comment = "" <;>
      by_cases hs : p.article_slug = "" <;> by_cases ht : p.article_title = "" <;>
      simp [missingFieldsV2, hn, hc, hs, ht]

/-- Witness for C2: a payload missing name and article_title is rejected
with exactly those two names, in order, and an empty trace. -/
theorem C2_witness :
    handlerV2 cfg0 "POST" ⟨"comments-intro", "", "hi", "intro", "", "", "", "1"⟩ stOK "1" "d" =
      (⟨400, jsonError "Missing required fields: name, article_title"⟩, []) := by
  have h := C2_missing_fields_exact cfg0 ⟨"comments-intro", "", "hi", "intro", "", "", "", "1"⟩
    stOK "1" "d" (by decide) (by decide) rfl (Or.inl rfl)
  rw [h.1]
  decide

/-- A valid payload whose article slug contains an underscore. -/
def pUnderscore : Payload :=
  ⟨"comments-my_article", "Ana", "hi", "my_article", "My Article", "", "", "1"⟩

/-- Counterexample to claim C3 as stated: the first handler interpolates the
raw slug into the branch name, so the slug "my_article" yields a branch name
containing an underscore — not only letters, digits and hyphens — and that
name is what the handler passes to the branch-creation call. -/
theorem C3_counterexample :
    '_' ∈ (newBranchNameV1 "my_article" "1730000000000").data ∧
    ¬('_'.isAlpha = true ∨ '_'.isDigit = true ∨ '_' = '-') ∧
    StoreOp.createRef ("refs/heads/" ++ newBranchNameV1 "my_article" "1730000000000") "abc123" ∈
      (handlerV1 cfg0 pUnderscore stOK "1730000000000" "d").2 := by
  refine ⟨by decide, by decide, by decide⟩

/-- Characters of a string-append are the append of the characters. -/
theorem data_append (s t : String) : (s ++ t).data = s.data ++ t.data := rfl

/-- Claim C3 (amended to the handlers that sanitize the slug): the branch
name is the deterministic function `newBranchNameV2` of the slug and the
record id, and — since the record id is a decimal timestamp — it contains
only letters, digits and hyphens. -/
theorem C3_branch_name_charset (slug recId : String)
    (hid : ∀ c ∈ recId.data, c.isDigit = true) :
    ∀ c ∈ (newBranchNameV2 slug recId).data,
      (c.isAlpha = true ∨ c.isDigit = true ∨ c = '-') := by
  intro c hc
  rw [newBranchNameV2, data_append, data_append, data_append] at hc
  rcases List.mem_append.1 hc with h | h
  · rcases List.mem_append.1 h with h' | h'
    · rcases List.mem_append.1 h' with h'' | h''
      · -- characters of the literal "comment-"
        simp at h''
        rcases h'' with rfl | rfl | rfl | rfl | rfl | rfl | rfl | rfl <;> decide
      · -- characters of the sanitized slug
        rw [sanitizeSlug] at h''
        rcases List.mem_map.1 h'' with ⟨a, _, rfl⟩
        by_cases hA : a.isAlpha = true
        · simp [hA]
        · by_cases hD : a.isDigit = true
          · simp [hA, hD]
          · simp [hA, hD]
    · -- the separating hyphen
      simp at h'
      subst h'
      decide
  · -- characters of the record id
    exact Or.inr (Or.inl (hid c h))

/-- Witness for C3: every character of the branch name derived from the slug
"intro" and a concrete timestamp id is a letter, a digit or a hyphen. -/
theorem C3_witness :
    ((newBranchNameV2 "intro" "1730000000000").data.all
      fun c => c.isAlpha || c.isDigit || c == '-') = true := by
  have h := C3_branch_name_charset "intro" "1730000000000" (by decide)
  rw [List.all_eq_true]
  intro c hc
  rcases h c hc with h1 | h1 | h1 <;> simp [h1]

/-- Claim C4: given a payload that passes the form filter, the honeypot and
the required-field checks, the handler rejects with the too-long client
error exactly when the comment is longer than 2000 characters; otherwise
(in particular at exactly 2000 characters) the submission is accepted into
the append protocol, whose outcome is a 200 success or a 500 store
failure — never the length rejection. -/
theorem C4_length_check (cfg : Config) (p : Payload) (st : Store) (i d : String)
    (hf1 : p.form_name ≠ "") (hf2 : jsStartsWith p.form_name cfg.formNamePfx = true)
    (hb : p.botField = "")
    (hr : ¬(p.name = "" ∨ p.comment = "" ∨ p.article_slug = "" ∨ p.article_title = "")) :
    ((handlerV1 cfg p st i d).1 = ⟨400, "Comment is too long."⟩ ↔ 2000 < p.comment.length) ∧
    (p.comment.length ≤ 2000 →
      (handlerV1 cfg p st i d).1.statusCode = 200 ∨
      (handlerV1 cfg p st i d).1.statusCode = 500) := by
  unfold handlerV1
  rw [if_neg (by simp [hf1, hf2]), if_neg (by simp [hb]), if_neg hr]
  by_cases hl : 2000 < p.comment.length
  · rw [if_pos hl]
    exact ⟨by simp [hl], fun h => absurd hl (by omega)⟩
  · rw [if_neg hl]
    rcases hrun : runV1 cfg p (commentDataOf p i d) st with ⟨r, t⟩
    cases r with
    | ok url =>
      simp only [hrun]
      refine ⟨⟨fun h => ?_, fun h => absurd h hl⟩, fun _ => Or.inl trivial⟩
      simp at h
    | error e =>
      simp only [hrun, JsErr.attemptedBranchCreation, Bool.false_eq_true, false_and, if_false]
      refine ⟨⟨fun h => ?_, fun h => absurd h hl⟩, fun _ => Or.inr trivial⟩
      simp at h

/-- A payload whose comment is 2001 characters long. -/
def pLong : Payload :=
  ⟨"comments-intro", "Ana", ⟨List.replicate 2001 'a'⟩, "intro", "Intro", "", "", "1"⟩

/-- A payload whose comment is exactly 2000 characters long. -/
def p2000 : Payload :=
  ⟨"comments-intro", "Ana", ⟨List.replicate 2000 'a'⟩, "intro", "Intro", "", "", "1"⟩

/-- The length of a string built from a character list is the list length. -/
theorem length_mk (l : List Char) : (String.mk l).length = l.length := rfl

/-- Witness for C4: a 2001-character comment is rejected as too long, and a
2000-character comment passes validation (here reaching a 200 success). -/
theorem C4_witness :
    (handlerV1 cfg0 pLong stOK "1" "d").1 = ⟨400, "Comment is too long."⟩ ∧
    ((handlerV1 cfg0 p2000 stOK "1" "d").1.statusCode = 200 ∨
     (handlerV1 cfg0 p2000 stOK "1" "d").1.statusCode = 500) := by
  have hlen1 : pLong.comment.length = 2001 := by
    rw [show pLong.comment = ⟨List.replicate 2001 'a'⟩ from rfl, length_mk,
      List.length_replicate]
  have hlen2 : p2000.comment.length = 2000 := by
    rw [show p2000.comment = ⟨List.replicate 2000 'a'⟩ from rfl, length_mk,
      List.length_replicate]
  have hne1 : pLong.comment ≠ "" := by
    intro h
    rw [h] at hlen1
    exact absurd hlen1 (by decide)
  have hne2 : p2000.comment ≠ "" := by
    intro h
    rw [h] at hlen2
    exact absurd hlen2 (by decide)
  have hr1 : ¬(pLong.name = "" ∨ pLong.comment = "" ∨ pLong.article_slug = "" ∨
      pLong.article_title = "") := by
    rintro (h | h | h | h)
    · exact absurd h (by decide)
    · exact hne1 h
    · exact absurd h (by decide)
    · exact absurd h (by decide)
  have hr2 : ¬(p2000.name = "" ∨ p2000.comment = "" ∨ p2000.article_slug = "" ∨
      p2000.article_title = "") := by
    rintro (h | h | h | h)
    · exact absurd h (by decide)
    · exact hne2 h
    · exact absurd h (by decide)
    · exact absurd h (by decide)
  constructor
  · exact (C4_length_check cfg0 pLong stOK "1" "d" (by decide) (by decide) rfl hr1).1.mpr
      (by omega)
  · exact (C4_length_check cfg0 p2000 stOK "1" "d" (by decide) (by decide) rfl hr2).2
      (by omega)

/-- The writes of an append of traces. -/
theorem writesOf_append (a b : List StoreOp) : writesOf (a ++ b) = writesOf a ++ writesOf b := by
  simp [writesOf]

/-- The file write the second handler's try block performs, as a function of
how far the store lets the run proceed: nothing if resolving the main tip,
creating the branch or reading the collection fails, and exactly one write
of the appended collection otherwise. -/
def runWrites (_cfg : Config) (p : Payload) (cd : CommentRecord) (st : Store) : List StoreOp :=
  match st.getRefRes with
  | .error _ => []
  | .ok _ =>
    match st.createRefRes with
    | .error _ => []
    | .ok _ =>
      match readCollection st with
      | .error _ => []
      | .ok (existing, fileSha) =>
        [StoreOp.putContent (commentsFilePathOf p) (commitMessageOf p cd)
          (updatedCommentsOf existing cd) fileSha (newBranchNameV2 p.article_slug cd.id)]

/-- The trace of the second handler's try block contains exactly the writes
described by `runWrites`. -/
theorem writesOf_runV2 (cfg : Config) (p : Payload) (cd : CommentRecord) (st : Store) :
    writesOf (runV2 cfg p cd st).2 = runWrites cfg p cd st := by
  obtain ⟨g, cr, gc, pc, cp, dr⟩ := st
  unfold runV2 runWrites readCollection
  dsimp only
  cases g with
  | error e => rfl
  | ok sha =>
    cases cr with
    | error e => rfl
    | ok u =>
      cases gc with
      | error e =>
        dsimp only
        by_cases h : e.status = some 404
        · rw [if_pos h]
          cases pc with
          | error e2 => rfl
          | ok u2 => cases cp <;> rfl
        · rw [if_neg h]
          rfl
      | ok fd =>
        obtain ⟨ct, sh⟩ := fd
        cases ct with
        | none =>
          cases pc with
          | error e2 => rfl
          | ok u2 => cases cp <;> rfl
        | some cs =>
          cases pc with
          | error e2 => rfl
          | ok u2 => cases cp <;> rfl

/-- The file writes of a whole run of the second handler: none on any
validation rejection, and the writes of the try block otherwise (the
catch-block branch deletion is not a write). -/
theorem writesOf_handlerV2_eq (cfg : Config) (m : String) (p : Payload) (st : Store)
    (i d : String) :
    writesOf (handlerV2 cfg m p st i d).2 =
      if m ≠ "POST" then []
      else if p.form_name = "" ∨ jsStartsWith p.form_name cfg.formNamePfx = false then []
      else if p.botField ≠ "" then []
      else if p.name = "" ∨ p.comment = "" ∨ p.article_slug = "" ∨ p.article_title = "" then []
      else if 2000 < p.comment.length then []
      else runWrites cfg p (commentDataOf p i d) st := by
  unfold handlerV2
  by_cases h1 : m ≠ "POST"
  · rw [if_pos h1, if_pos h1]
    rfl
  · rw [if_neg h1, if_neg h1]
    by_cases h2 : p.form_name = "" ∨ jsStartsWith p.form_name cfg.formNamePfx = false
    · rw [if_pos h2, if_pos h2]
      rfl
    · rw [if_neg h2, if_neg h2]
      by_cases h3 : p.botField ≠ ""
      · rw [if_pos h3, if_pos h3]
        rfl
      · rw [if_neg h3, if_neg h3]
        by_cases h4 : p.name = "" ∨ p.comment = "" ∨ p.article_slug = "" ∨ p.article_title = ""
        · rw [if_pos h4, if_pos h4]
          rfl
        · rw [if_neg h4, if_neg h4]
          by_cases h5 : 2000 < p.comment.length
          · rw [if_pos h5, if_pos h5]
            rfl
          · rw [if_neg h5, if_neg h5]
            dsimp only
            have hw := writesOf_runV2 cfg p (commentDataOf p i d) st
            rcases hr : runV2 cfg p (commentDataOf p i d) st with ⟨r, t⟩
            rw [hr] at hw
            cases r with
            | ok url => exact hw
            | error e =>
              dsimp only
              rw [writesOf_append, show writesOf [StoreOp.deleteRef ("heads/" ++
                newBranchNameV2 p.article_slug (commentDataOf p i d).id)] = [] from rfl,
                List.append_nil]
              exact hw

/-- Claim C5: the persisted record is built by `commentDataOf`, whose record
type has exactly the fields id, name, comment, date; the email field of the
payload never reaches it, so two payloads differing only in the email field
produce the same record — and, on a whole run of the second handler against
any store, exactly the same file writes (the email may appear in the
pull-request body, which is not persisted into the collection). -/
theorem C5_email_not_persisted (cfg : Config) (m f n c s t e1 e2 b si : String)
    (st : Store) (i d : String) :
    commentDataOf ⟨f, n, c, s, t, e1, b, si⟩ i d =
      commentDataOf ⟨f, n, c, s, t, e2, b, si⟩ i d ∧
    writesOf (handlerV2 cfg m ⟨f, n, c, s, t, e1, b, si⟩ st i d).2 =
      writesOf (handlerV2 cfg m ⟨f, n, c, s, t, e2, b, si⟩ st i d).2 := by
  refine ⟨rfl, ?_⟩
  rw [writesOf_handlerV2_eq, writesOf_handlerV2_eq]
  dsimp only [commentDataOf]
  split_ifs <;> rfl

/-- Claim C6: the append step hands the writer exactly the decoded existing
sequence with the new record at the tail: reading `[A, B]` leads to a write
of `[A, B, R]`, with `A` and `B` unchanged, at the version token read. -/
theorem C6_append_preserves (cfg : Config) (p : Payload) (st : Store) (i d : String)
    (A B : CommentRecord) (fsha sha0 : String)
    (hf1 : p.form_name ≠ "") (hf2 : jsStartsWith p.form_name cfg.formNamePfx = true)
    (hb : p.botField = "")
    (hr : ¬(p.name = "" ∨ p.comment = "" ∨ p.article_slug = "" ∨ p.article_title = ""))
    (hl : ¬2000 < p.comment.length)
    (h1 : st.getRefRes = .ok sha0) (h2 : st.createRefRes = .ok ())
    (h3 : st.getContentRes = .ok ⟨some [A, B], fsha⟩) :
    updatedCommentsOf [A, B] (commentDataOf p i d) = [A, B, commentDataOf p i d] ∧
    StoreOp.putContent (commentsFilePathOf p) (commitMessageOf p (commentDataOf p i d))
      [A, B, commentDataOf p i d] (some fsha) (newBranchNameV1 p.article_slug i) ∈
      (handlerV1 cfg p st i d).2 := by
  refine ⟨rfl, ?_⟩
  unfold handlerV1 runV1 readCollection
  rw [if_neg (by simp [hf1, hf2]), if_neg (by simp [hb]), if_neg hr, if_neg hl]
  dsimp only
  rw [h1, h2, h3]
  dsimp only
  rcases hpc : st.putContentRes with e | u
  · simp [hpc, JsErr.attemptedBranchCreation, updatedCommentsOf, commentDataOf]
  · rcases hcp : st.createPullRes with e | url
    · simp [hpc, hcp, JsErr.attemptedBranchCreation, updatedCommentsOf, commentDataOf]
    · simp [hpc, hcp, updatedCommentsOf, commentDataOf]

/-- Records already present in the collection read back before the append. -/
def recA : CommentRecord := ⟨"10", "Al", "first", "2024-01-01T00:00:00.000Z"⟩

/-- A second pre-existing record. -/
def recB : CommentRecord := ⟨"11", "Bea", "second", "2024-01-02T00:00:00.000Z"⟩

/-- A store whose collection file already holds two records. -/
def stTwo : Store :=
  ⟨.ok "abc123", .ok (), .ok ⟨some [recA, recB], "fsha1"⟩, .ok (),
   .ok "https://github.com/o/r/pull/2", .ok ()⟩

/-- Witness for C6: appending Ana's record to `[recA, recB]` writes exactly
`[recA, recB, Ana]` at the version token that was read. -/
theorem C6_witness :
    StoreOp.putContent (commentsFilePathOf pAna) (commitMessageOf pAna (commentDataOf pAna "1" "d"))
      [recA, recB, commentDataOf pAna "1" "d"] (some "fsha1") (newBranchNameV1 "intro" "1") ∈
      (handlerV1 cfg0 pAna stTwo "1" "d").2 :=
  (C6_append_preserves cfg0 pAna stTwo "1" "d" recA recB "fsha1" "abc123" (by decide)
    (by decide) rfl (by decide) (by decide) rfl rfl rfl).2

/-- Claim C8: a NotFound (404) on the collection read does not fail the
append — the run proceeds with an empty collection and no version token, so
the write creates the file; any other read error aborts the append (no
write happens) and surfaces as the server error for that failure. -/
theorem C8_read_not_found (cfg : Config) (p : Payload) (st : Store) (i d : String)
    (err : JsErr) (sha0 : String)
    (hf1 : p.form_name ≠ "") (hf2 : jsStartsWith p.form_name cfg.formNamePfx = true)
    (hb : p.botField = "")
    (hr : ¬(p.name = "" ∨ p.comment = "" ∨ p.article_slug = "" ∨ p.article_title = ""))
    (hl : ¬2000 < p.comment.length)
    (h1 : st.getRefRes = .ok sha0) (h2 : st.createRefRes = .ok ())
    (h3 : st.getContentRes = .error err) :
    (err.status = some 404 →
      StoreOp.putContent (commentsFilePathOf p) (commitMessageOf p (commentDataOf p i d))
        (updatedCommentsOf [] (commentDataOf p i d)) none (newBranchNameV1 p.article_slug i) ∈
        (handlerV1 cfg p st i d).2) ∧
    (err.status ≠ some 404 →
      writesOf (handlerV1 cfg p st i d).2 = [] ∧
      (handlerV1 cfg p st i d).1 = ⟨500, "Error processing comment: " ++ err.message⟩) := by
  constructor
  · intro h404
    unfold handlerV1 runV1 readCollection
    rw [if_neg (by simp [hf1, hf2]), if_neg (by simp [hb]), if_neg hr, if_neg hl]
    dsimp only
    rw [h1, h2, h3]
    dsimp only
    rw [if_pos h404]
    rcases hpc : st.putContentRes with e | u
    · simp [hpc, JsErr.attemptedBranchCreation, updatedCommentsOf, commentDataOf]
    · rcases hcp : st.createPullRes with e | url
      · simp [hpc, hcp, JsErr.attemptedBranchCreation, updatedCommentsOf, commentDataOf]
      · simp [hpc, hcp, updatedCommentsOf, commentDataOf]
  · intro hno
    unfold handlerV1 runV1 readCollection
    rw [if_neg (by simp [hf1, hf2]), if_neg (by simp [hb]), if_neg hr, if_neg hl]
    dsimp only
    rw [h1, h2, h3]
    dsimp only
    rw [if_neg hno]
    dsimp only
    rw [if_neg (by simp [JsErr.attemptedBranchCreation])]
    exact ⟨rfl, rfl⟩

/-- A store whose collection read fails with a non-404 error. -/
def stReadFail : Store :=
  ⟨.ok "abc123", .ok (), .error ⟨some 403, "Forbidden"⟩, .ok (),
   .ok "https://github.com/o/r/pull/3", .ok ()⟩

/-- Witness for C8: against a store answering 404 on the read, the handler
writes the one-record collection with no version token; against a store
answering 403, nothing is written and the 403 is surfaced as the error. -/
theorem C8_witness :
    StoreOp.putContent (commentsFilePathOf pAna) (commitMessageOf pAna (commentDataOf pAna "1" "d"))
      (updatedCommentsOf [] (commentDataOf pAna "1" "d")) none (newBranchNameV1 "intro" "1") ∈
      (handlerV1 cfg0 pAna stOK "1" "d").2 ∧
    writesOf (handlerV1 cfg0 pAna stReadFail "1" "d").2 = [] ∧
    (handlerV1 cfg0 pAna stReadFail "1" "d").1 =
      ⟨500, "Error processing comment: Forbidden"⟩ := by
  refine ⟨(C8_read_not_found cfg0 pAna stOK "1" "d" ⟨some 404, "Not Found"⟩ "abc123"
    (by decide) (by decide) rfl (by decide) (by decide) rfl rfl rfl).1 rfl, ?_, ?_⟩
  · exact ((C8_read_not_found cfg0 pAna stReadFail "1" "d" ⟨some 403, "Forbidden"⟩ "abc123"
      (by decide) (by decide) rfl (by decide) (by decide) rfl rfl rfl).2 (by decide)).1
  · exact (((C8_read_not_found cfg0 pAna stReadFail "1" "d" ⟨some 403, "Forbidden"⟩ "abc123"
      (by decide) (by decide) rfl (by decide) (by decide) rfl rfl rfl).2 (by decide)).2).trans
      (by decide)

/-- Dropping leading whitespace leaves a run of letters unchanged. -/
theorem dropWhile_replicate_a (nn : Nat) :
    List.dropWhile Char.isWhitespace (List.replicate nn 'a') = List.replicate nn 'a' := by
  cases nn with
  | zero => rfl
  | succ k =>
    rw [List.replicate_succ, List.dropWhile_cons, if_neg (by decide), ← List.replicate_succ]

/-- A payload whose comment is a space followed by 2000 letters: 2001 raw
characters, 2000 after trimming. -/
def pPadded : Payload :=
  ⟨"comments-intro", "Ana", ⟨' ' :: List.replicate 2000 'a'⟩, "intro", "Intro", "", "", "1"⟩

/-- Claim C10: the 2000-character limit is checked on the raw, untrimmed
comment: a comment whose excess over 2000 characters is only surrounding
whitespace is rejected as too long, although the record that would have
been persisted stores the trimmed comment, which is within the limit. -/
theorem C10_raw_untrimmed_length :
    (handlerV1 cfg0 pPadded stOK "1" "d").1 = ⟨400, "Comment is too long."⟩ ∧
    2000 < pPadded.comment.length ∧
    (jsTrim pPadded.comment).length ≤ 2000 ∧
    (commentDataOf pPadded "1" "d").comment = jsTrim pPadded.comment := by
  have hlen : pPadded.comment.length = 2001 := by
    rw [show pPadded.comment = ⟨' ' :: List.replicate 2000 'a'⟩ from rfl, length_mk,
      List.length_cons, List.length_replicate]
  have htrim : jsTrim pPadded.comment = ⟨List.replicate 2000 'a'⟩ := by
    rw [show pPadded.comment = ⟨' ' :: List.replicate 2000 'a'⟩ from rfl]
    unfold jsTrim
    dsimp only
    rw [List.dropWhile_cons, if_pos (by decide), dropWhile_replicate_a,
      List.reverse_replicate, dropWhile_replicate_a, List.reverse_replicate]
  refine ⟨?_, by omega, by rw [htrim, length_mk, List.length_replicate], rfl⟩
  unfold handlerV1
  rw [if_neg (by decide), if_neg (by decide), if_neg ?hfields, if_pos (by omega)]
  case hfields =>
    rintro (h | h | h | h)
    · exact absurd h (by decide)
    · rw [h] at hlen
      exact absurd hlen (by decide)
    · exact absurd h (by decide)
    · exact absurd h (by decide)

end TrueParenting
